import Mathlib

/-!
Shallow embedding of the WeMow760 quote-intake serverless handlers.

Sources embedded:
- `src/api/quote.js`        : quote handler, silent-success policy, the three
  collaborator calls run in parallel via a settle-all join (namespace `Quote`).
- `src/unnamed/part_000`    : quote handler variant with an OPTIONS preflight
  branch and a diagnostic-echo response carrying a per-collaborator summary
  (namespace `Part000`).
- `src/api/debug.js`, first document  : configuration diagnostic endpoint
  (namespace `Debug`).
- `src/api/debug.js`, second document : quote handler variant that awaits the
  record-store call first, then runs SMS and email in parallel (namespace `Seq`).

Modeling conventions: a JavaScript string-or-undefined value is `Option String`
(`none` = absent/undefined); JS truthiness on such a value is `truthy`; template
interpolation of a possibly-undefined value is `jsStr` (JS renders `undefined`
as the text "undefined"). The request body is an association list of string
fields; the handlers read it only through destructuring of the six known keys,
modeled by `getField`/`destructure`. The outcome of each outbound collaborator
call is an oracle input (`Settled`), since the collaborators are external HTTP
services; the handler result records the HTTP response and the list of
collaborator invocations with their payloads. Console logging and the email
HTML body are not modeled (no claim mentions them).
-/

/-- JS truthiness of a string-or-undefined value: `undefined` and the empty
string are falsy, every other string is truthy. -/
def truthy : Option String → Bool
  | none => false
  | some s => !(s == "")

/-- JS template interpolation of a string-or-undefined value: `undefined`
renders as the text "undefined". -/
def jsStr : Option String → String
  | none => "undefined"
  | some s => s

/-- Property access `body[k]` on the request body, modeled as association-list
lookup; an absent key yields `none` (undefined). -/
def getField (body : List (String × String)) (k : String) : Option String :=
  (body.find? (fun p => p.1 == k)).map Prod.snd

/-- The destructured form submission: the six fields read by
`const name, phone, address, service, urgency, details = req.body`. -/
structure QuoteData where
  name : Option String
  phone : Option String
  address : Option String
  service : Option String
  urgency : Option String
  details : Option String
deriving DecidableEq, Repr

/-- Destructuring of the request body into the six known fields
(quote.js line 13, part_000 line 21, debug.js second document line 40). -/
def destructure (body : List (String × String)) : QuoteData where
  name := getField body "name"
  phone := getField body "phone"
  address := getField body "address"
  service := getField body "service"
  urgency := getField body "urgency"
  details := getField body "details"

/-- The settled outcome of one collaborator promise, as observed through
`Promise.allSettled`: fulfilled, or rejected with a stringified reason. -/
inductive Settled where
  | fulfilled
  | rejected (reason : String)
deriving DecidableEq, Repr

/-- Oracle: the settled outcomes of the three collaborator calls of one
valid request (record store, SMS gateway, email gateway). -/
structure Outcomes where
  airtable : Settled
  sms : Settled
  email : Settled
deriving DecidableEq, Repr

/-- One outbound collaborator invocation together with the payload it
received. -/
inductive Call where
  | airtable (payload : QuoteData)
  | sms (payload : QuoteData)
  | email (payload : QuoteData)
deriving DecidableEq, Repr

/-- The body of the HTTP response sent back to the submitter. -/
inductive RespBody where
  | error (msg : String)
  | success
  | successDebug (airtable sms email : String)
  | statusReport (entries : List (String × String))
  | empty
deriving DecidableEq, Repr

/-- The HTTP response: status code, JSON body, response headers set. -/
structure Response where
  status : Nat
  body : RespBody
  headers : List (String × String)
deriving DecidableEq, Repr

/-- What one handler invocation produced: the response to the submitter and
the trace of collaborator calls it dispatched. -/
structure HandlerResult where
  response : Response
  calls : List Call
deriving DecidableEq, Repr

/-- The three CORS headers the handlers set. -/
def corsHeaders : List (String × String) :=
  [("Access-Control-Allow-Origin", "*"),
   ("Access-Control-Allow-Methods", "POST"),
   ("Access-Control-Allow-Headers", "Content-Type")]

namespace Quote

/-- The entries of the SMS message array of quote.js lines 95-104, before
`filter(Boolean)`: `null` entries are `none`, string entries are `some`. -/
def smsEntries (d : QuoteData) : List (Option String) :=
  [some "🌿 New WeMow760 Quote",
   some "",
   some ("Name: " ++ jsStr d.name),
   some ("Phone: " ++ jsStr d.phone),
   some ("Address: " ++ jsStr d.address),
   if truthy d.service then some ("Service: " ++ jsStr d.service) else none,
   if truthy d.urgency then some ("Urgency: " ++ jsStr d.urgency) else none,
   if truthy d.details then some ("Details: " ++ jsStr d.details) else none]

/-- `filter(Boolean)`: drops `null` entries and the empty-string entry. -/
def smsLines (d : QuoteData) : List String :=
  (smsEntries d).filterMap (fun o => if truthy o then o else none)

/-- The rendered SMS text: the surviving lines joined with newlines. -/
def smsMessage (d : QuoteData) : String :=
  String.intercalate "\n" (smsLines d)

/-- The Airtable `fields` object of quote.js lines 70-78, with
possibly-`undefined` values (`Service: data.service or undefined`, likewise
`Urgency`; `Details: data.details or the empty string`). -/
def airtableFieldsObj (d : QuoteData) : List (String × Option String) :=
  [("Name", some (jsStr d.name)),
   ("Phone", some (jsStr d.phone)),
   ("Address", some (jsStr d.address)),
   ("Service", if truthy d.service then d.service else none),
   ("Urgency", if truthy d.urgency then d.urgency else none),
   ("Details", some (if truthy d.details then jsStr d.details else "")),
   ("Status", some "New")]

/-- The field set actually serialized onto the wire: `JSON.stringify` omits
keys whose value is `undefined`. -/
def airtableFields (d : QuoteData) : List (String × String) :=
  (airtableFieldsObj d).filterMap (fun p => p.2.map (fun v => (p.1, v)))

/-- quote.js lines 29-48: the channels whose settled outcome was rejected,
collected for operator-side logging only. -/
def failedChannels (o : Outcomes) : List String :=
  (match o.airtable with | .rejected _ => ["airtable"] | .fulfilled => []) ++
  (match o.sms with | .rejected _ => ["sms"] | .fulfilled => []) ++
  (match o.email with | .rejected _ => ["email"] | .fulfilled => [])

/-- quote.js lines 12-54: the body of the try block. Validation happens before
any dispatch; on valid input all three collaborators are dispatched with the
full destructured payload and joined with `Promise.allSettled`; the response
is 200 success regardless of the settled outcomes (silent-success policy). -/
def handlerPost (d : QuoteData) (_o : Outcomes) : HandlerResult :=
  if !truthy d.name || !truthy d.phone || !truthy d.address then
    { response := { status := 400,
                    body := .error "Name, phone, and address are required.",
                    headers := corsHeaders },
      calls := [] }
  else
    { response := { status := 200, body := .success, headers := corsHeaders },
      calls := [.airtable d, .sms d, .email d] }

/-- quote.js handler: non-POST methods are rejected with 405 before the CORS
headers are set (this variant has no OPTIONS preflight branch). -/
def handler (method : String) (body : List (String × String)) (o : Outcomes) :
    HandlerResult :=
  if method != "POST" then
    { response := { status := 405, body := .error "Method not allowed",
                    headers := [] },
      calls := [] }
  else
    handlerPost (destructure body) o

end Quote

namespace Part000

/-- SMS entries of part_000 lines 88-97 (header differs from quote.js by the
word "Request"), before `filter(Boolean)`. -/
def smsEntries (d : QuoteData) : List (Option String) :=
  [some "🌿 New WeMow760 Quote Request",
   some "",
   some ("Name: " ++ jsStr d.name),
   some ("Phone: " ++ jsStr d.phone),
   some ("Address: " ++ jsStr d.address),
   if truthy d.service then some ("Service: " ++ jsStr d.service) else none,
   if truthy d.urgency then some ("Urgency: " ++ jsStr d.urgency) else none,
   if truthy d.details then some ("Details: " ++ jsStr d.details) else none]

/-- `filter(Boolean)` over the entries. -/
def smsLines (d : QuoteData) : List String :=
  (smsEntries d).filterMap (fun o => if truthy o then o else none)

/-- The rendered SMS text. -/
def smsMessage (d : QuoteData) : String :=
  String.intercalate "\n" (smsLines d)

/-- part_000 lines 59-67: the Airtable field set, built by starting from the
required fields plus Details and Status and appending Service and Urgency only
when truthy. -/
def airtableFields (d : QuoteData) : List (String × String) :=
  [("Name", jsStr d.name),
   ("Phone", jsStr d.phone),
   ("Address", jsStr d.address),
   ("Details", if truthy d.details then jsStr d.details else ""),
   ("Status", "New")] ++
  (if truthy d.service then [("Service", jsStr d.service)] else []) ++
  (if truthy d.urgency then [("Urgency", jsStr d.urgency)] else [])

/-- part_000 lines 40-42: one entry of the per-collaborator summary, from the
settled outcome of that collaborator. -/
def settledSummary : Settled → String
  | .fulfilled => "OK"
  | .rejected r => "FAIL: " ++ r

/-- part_000 lines 20-51: the try block. Validation first; on valid input all
three collaborators are dispatched with the full destructured payload and
joined with `Promise.allSettled`; the response is 200 success carrying the
per-collaborator summary of all three settled outcomes (diagnostic-echo
policy). -/
def handlerPost (d : QuoteData) (o : Outcomes) : HandlerResult :=
  if !truthy d.name || !truthy d.phone || !truthy d.address then
    { response := { status := 400,
                    body := .error "Name, phone, and address are required.",
                    headers := corsHeaders },
      calls := [] }
  else
    { response := { status := 200,
                    body := .successDebug (settledSummary o.airtable)
                      (settledSummary o.sms) (settledSummary o.email),
                    headers := corsHeaders },
      calls := [.airtable d, .sms d, .email d] }

/-- part_000 handler: an OPTIONS preflight receives 200 with the CORS headers
and an empty body; any other non-POST method receives 405. -/
def handler (method : String) (body : List (String × String)) (o : Outcomes) :
    HandlerResult :=
  if method == "OPTIONS" then
    { response := { status := 200, body := .empty, headers := corsHeaders },
      calls := [] }
  else if method != "POST" then
    { response := { status := 405, body := .error "Method not allowed",
                    headers := [] },
      calls := [] }
  else
    handlerPost (destructure body) o

end Part000

namespace Seq

/-- The record-store outcome in the sequential variant: a rejection reason, or
fulfillment carrying the optional created-record id extracted from
`airtableResult.records?.[0]?.id or null`. -/
inductive AirtableOutcome where
  | rejected (reason : String)
  | fulfilled (recordId : Option String)
deriving DecidableEq, Repr

/-- A collaborator invocation of the sequential variant; the email call also
receives the record id obtained from the record-store call (null when that
call failed). -/
inductive SeqCall where
  | airtable (payload : QuoteData)
  | sms (payload : QuoteData)
  | email (payload : QuoteData) (recordId : Option String)
deriving DecidableEq, Repr

/-- What one invocation of the sequential handler produced. -/
structure SeqResult where
  response : Response
  calls : List SeqCall
deriving DecidableEq, Repr

/-- The record id available after the awaited record-store call: null when
that call rejected (the failure is caught and only logged), otherwise the id
extracted from the response. -/
def recordIdOf : AirtableOutcome → Option String
  | .rejected _ => none
  | .fulfilled rid => rid

/-- debug.js second document, lines 39-72 of the file: the try block.
Validation first; then the record-store call is issued and awaited inside its
own try/catch (a failure is logged and leaves the record id null); then SMS
and email are dispatched together and joined with `Promise.allSettled`; the
response is 200 success regardless of outcomes (silent-success policy). -/
def handlerPost (d : QuoteData) (oa : AirtableOutcome) (_os _oe : Settled) :
    SeqResult :=
  if !truthy d.name || !truthy d.phone || !truthy d.address then
    { response := { status := 400,
                    body := .error "Name, phone, and address are required.",
                    headers := corsHeaders },
      calls := [] }
  else
    { response := { status := 200, body := .success, headers := corsHeaders },
      calls := [.airtable d, .sms d, .email d (recordIdOf oa)] }

/-- Sequential-variant handler: OPTIONS preflight branch, then the non-POST
guard, then the try block. -/
def handler (method : String) (body : List (String × String))
    (oa : AirtableOutcome) (os oe : Settled) : SeqResult :=
  if method == "OPTIONS" then
    { response := { status := 200, body := .empty, headers := corsHeaders },
      calls := [] }
  else if method != "POST" then
    { response := { status := 405, body := .error "Method not allowed",
                    headers := [] },
      calls := [] }
  else
    handlerPost (destructure body) oa os oe

end Seq

namespace Debug

/-- The fixed list of seven configuration variable names inspected by the
diagnostic endpoint (debug.js lines 2-10). -/
def vars : List String :=
  ["AIRTABLE_API_KEY",
   "AIRTABLE_BASE_ID",
   "AIRTABLE_TABLE_ID",
   "TEXTBELT_API_KEY",
   "NOTIFY_PHONE",
   "NOTIFY_EMAIL",
   "RESEND_API_KEY"]

/-- The preview of one configuration value (debug.js line 15): a truthy value
reports its length and its first four characters (`val.slice(0, 4)`); an
absent or empty value reports MISSING. -/
def varStatus (val : Option String) : String :=
  if truthy val then
    "SET (" ++ toString (jsStr val).length ++ " chars, starts with \"" ++
      (⟨(jsStr val).data.take 4⟩ : String) ++ "...\")"
  else
    "MISSING"

/-- The status object built by the loop over the seven variable names; the
process environment is a partial map from variable name to value. -/
def statusReport (env : String → Option String) : List (String × String) :=
  vars.map (fun v => (v, varStatus (env v)))

/-- debug.js handler: always responds 200 with the status object. -/
def handler (env : String → Option String) : Response :=
  { status := 200, body := .statusReport (statusReport env), headers := [] }

end Debug

/-- The example submission of the specification: Jane Doe requesting Mowing,
with details and without urgency, as a request body. -/
def janeBody : List (String × String) :=
  [("name", "Jane Doe"),
   ("phone", "760-555-0100"),
   ("address", "123 Oak St"),
   ("service", "Mowing"),
   ("details", "Gate code 4521")]

/-- A process environment holding a three-character secret in
AIRTABLE_API_KEY and nothing else. -/
def envShort : String → Option String :=
  fun v => if v = "AIRTABLE_API_KEY" then some "abc" else none

/-- The six body keys the handlers destructure. -/
def knownKeys : List String :=
  ["name", "phone", "address", "service", "urgency", "details"]

/-- A valid submission carrying only the three required fields: every
optional field absent. -/
def minimalData : QuoteData :=
  { name := some "Jane Doe",
    phone := some "760-555-0100",
    address := some "123 Oak St",
    service := none,
    urgency := none,
    details := none }

theorem str_append_empty (s : String) : s ++ "" = s := by
  apply congrArg String.mk
  show (s ++ "").data = s.data
  rw [String.data_append]
  simp

theorem append_ne_empty (p s : String) (hp : p.data ≠ []) : ¬(p ++ s = "") := by
  intro h
  apply hp
  have hd := congrArg String.data h
  rw [String.data_append] at hd
  exact (List.append_eq_nil.mp hd).1

theorem truthy_append (p s : String) (hp : p.data ≠ []) :
    truthy (some (p ++ s)) = true := by
  have h := append_ne_empty p s hp
  simp [truthy, h]

theorem append_ne_of_head (p q s t : String)
    (hp : p.data ≠ []) (hq : q.data ≠ [])
    (h : p.data.head? ≠ q.data.head?) : p ++ s ≠ q ++ t := by
  intro he
  apply h
  have hd : p.data ++ s.data = q.data ++ t.data := by
    have := congrArg String.data he
    rwa [String.data_append, String.data_append] at this
  cases hp' : p.data with
  | nil => exact absurd hp' hp
  | cons c cs =>
    cases hq' : q.data with
    | nil => exact absurd hq' hq
    | cons e es =>
      rw [hp', hq'] at hd
      simp only [List.cons_append, List.cons.injEq] at hd
      simp [hd.1]

theorem append_ne_lit (p s q : String)
    (hp : p.data ≠ []) (hq : q.data ≠ [])
    (h : p.data.head? ≠ q.data.head?) : p ++ s ≠ q := by
  intro he
  exact append_ne_of_head p q s "" hp hq h (he.trans (str_append_empty q).symm)

theorem exists_of_truthy (v : Option String) (h : truthy v = true) :
    ∃ s, v = some s ∧ s ≠ "" := by
  cases v with
  | none => simp [truthy] at h
  | some s => exact ⟨s, rfl, by simpa [truthy] using h⟩

theorem Quote.mem_smsLines (d : QuoteData) (l : String) :
    l ∈ Quote.smsLines d ↔
      l = "🌿 New WeMow760 Quote" ∨
      l = "Name: " ++ jsStr d.name ∨
      l = "Phone: " ++ jsStr d.phone ∨
      l = "Address: " ++ jsStr d.address ∨
      (truthy d.service = true ∧ l = "Service: " ++ jsStr d.service) ∨
      (truthy d.urgency = true ∧ l = "Urgency: " ++ jsStr d.urgency) ∨
      (truthy d.details = true ∧ l = "Details: " ++ jsStr d.details) := by
  have h1 := truthy_append "Name: " (jsStr d.name) (by decide)
  have h2 := truthy_append "Phone: " (jsStr d.phone) (by decide)
  have h3 := truthy_append "Address: " (jsStr d.address) (by decide)
  have h4 := truthy_append "Service: " (jsStr d.service) (by decide)
  have h5 := truthy_append "Urgency: " (jsStr d.urgency) (by decide)
  have h6 := truthy_append "Details: " (jsStr d.details) (by decide)
  cases hs : truthy d.service <;> cases hu : truthy d.urgency <;>
    cases hd : truthy d.details <;>
      simp +decide [Quote.smsLines, Quote.smsEntries, hs, hu, hd,
        h1, h2, h3, h4, h5, h6]

theorem Part000.mem_smsLines_v0 (d : QuoteData) (l : String) :
    l ∈ Part000.smsLines d ↔
      l = "🌿 New WeMow760 Quote Request" ∨
      l = "Name: " ++ jsStr d.name ∨
      l = "Phone: " ++ jsStr d.phone ∨
      l = "Address: " ++ jsStr d.address ∨
      (truthy d.service = true ∧ l = "Service: " ++ jsStr d.service) ∨
      (truthy d.urgency = true ∧ l = "Urgency: " ++ jsStr d.urgency) ∨
      (truthy d.details = true ∧ l = "Details: " ++ jsStr d.details) := by
  have h1 := truthy_append "Name: " (jsStr d.name) (by decide)
  have h2 := truthy_append "Phone: " (jsStr d.phone) (by decide)
  have h3 := truthy_append "Address: " (jsStr d.address) (by decide)
  have h4 := truthy_append "Service: " (jsStr d.service) (by decide)
  have h5 := truthy_append "Urgency: " (jsStr d.urgency) (by decide)
  have h6 := truthy_append "Details: " (jsStr d.details) (by decide)
  cases hs : truthy d.service <;> cases hu : truthy d.urgency <;>
    cases hd : truthy d.details <;>
      simp +decide [Part000.smsLines, Part000.smsEntries, hs, hu, hd,
        h1, h2, h3, h4, h5, h6]

theorem Quote.mem_airtableKeys (d : QuoteData) (k : String) :
    k ∈ (Quote.airtableFields d).map Prod.fst ↔
      k = "Name" ∨ k = "Phone" ∨ k = "Address" ∨
      (truthy d.service = true ∧ k = "Service") ∨
      (truthy d.urgency = true ∧ k = "Urgency") ∨
      k = "Details" ∨ k = "Status" := by
  cases hs : truthy d.service with
  | false =>
    cases hu : truthy d.urgency with
    | false => simp [Quote.airtableFields, Quote.airtableFieldsObj, hs, hu]
    | true =>
      obtain ⟨u, hv, _⟩ := exists_of_truthy _ hu
      have htu : truthy (some u) = true := hv ▸ hu
      simp [Quote.airtableFields, Quote.airtableFieldsObj, hs, hu, hv, htu]
  | true =>
    obtain ⟨s, hv, _⟩ := exists_of_truthy _ hs
    have hts : truthy (some s) = true := hv ▸ hs
    cases hu : truthy d.urgency with
    | false =>
      simp [Quote.airtableFields, Quote.airtableFieldsObj, hs, hu, hv, hts]
    | true =>
      obtain ⟨u, hv', _⟩ := exists_of_truthy _ hu
      have htu : truthy (some u) = true := hv' ▸ hu
      simp [Quote.airtableFields, Quote.airtableFieldsObj, hs, hu, hv, hv',
        hts, htu]

theorem Part000.mem_airtableKeys_v0 (d : QuoteData) (k : String) :
    k ∈ (Part000.airtableFields d).map Prod.fst ↔
      k = "Name" ∨ k = "Phone" ∨ k = "Address" ∨ k = "Details" ∨
      k = "Status" ∨
      (truthy d.service = true ∧ k = "Service") ∨
      (truthy d.urgency = true ∧ k = "Urgency") := by
  cases hs : truthy d.service <;> cases hu : truthy d.urgency <;>
    simp [Part000.airtableFields, hs, hu]

theorem Quote.no_line_head (d : QuoteData) (p s : String) (hp : p.data ≠ [])
    (h1 : p.data.head? ≠ some '🌿')
    (h2 : p.data.head? ≠ some 'N')
    (h3 : p.data.head? ≠ some 'P')
    (h4 : p.data.head? ≠ some 'A')
    (h5 : truthy d.service = true → p.data.head? ≠ some 'S')
    (h6 : truthy d.urgency = true → p.data.head? ≠ some 'U')
    (h7 : truthy d.details = true → p.data.head? ≠ some 'D') :
    (p ++ s) ∉ Quote.smsLines d := by
  intro hmem
  rw [Quote.mem_smsLines] at hmem
  rcases hmem with h | h | h | h | ⟨ht, h⟩ | ⟨ht, h⟩ | ⟨ht, h⟩
  · have e : "🌿 New WeMow760 Quote".data.head? = some '🌿' := by decide
    exact append_ne_lit p s _ hp (by decide) (by rw [e]; exact h1) h
  · have e : "Name: ".data.head? = some 'N' := by decide
    exact append_ne_of_head p "Name: " s _ hp (by decide) (by rw [e]; exact h2) h
  · have e : "Phone: ".data.head? = some 'P' := by decide
    exact append_ne_of_head p "Phone: " s _ hp (by decide) (by rw [e]; exact h3) h
  · have e : "Address: ".data.head? = some 'A' := by decide
    exact append_ne_of_head p "Address: " s _ hp (by decide)
      (by rw [e]; exact h4) h
  · have e : "Service: ".data.head? = some 'S' := by decide
    exact append_ne_of_head p "Service: " s _ hp (by decide)
      (by rw [e]; exact h5 ht) h
  · have e : "Urgency: ".data.head? = some 'U' := by decide
    exact append_ne_of_head p "Urgency: " s _ hp (by decide)
      (by rw [e]; exact h6 ht) h
  · have e : "Details: ".data.head? = some 'D' := by decide
    exact append_ne_of_head p "Details: " s _ hp (by decide)
      (by rw [e]; exact h7 ht) h

theorem Part000.no_line_head_v0 (d : QuoteData) (p s : String) (hp : p.data ≠ [])
    (h1 : p.data.head? ≠ some '🌿')
    (h2 : p.data.head? ≠ some 'N')
    (h3 : p.data.head? ≠ some 'P')
    (h4 : p.data.head? ≠ some 'A')
    (h5 : truthy d.service = true → p.data.head? ≠ some 'S')
    (h6 : truthy d.urgency = true → p.data.head? ≠ some 'U')
    (h7 : truthy d.details = true → p.data.head? ≠ some 'D') :
    (p ++ s) ∉ Part000.smsLines d := by
  intro hmem
  rw [Part000.mem_smsLines_v0] at hmem
  rcases hmem with h | h | h | h | ⟨ht, h⟩ | ⟨ht, h⟩ | ⟨ht, h⟩
  · have e : "🌿 New WeMow760 Quote Request".data.head? = some '🌿' := by decide
    exact append_ne_lit p s _ hp (by decide) (by rw [e]; exact h1) h
  · have e : "Name: ".data.head? = some 'N' := by decide
    exact append_ne_of_head p "Name: " s _ hp (by decide) (by rw [e]; exact h2) h
  · have e : "Phone: ".data.head? = some 'P' := by decide
    exact append_ne_of_head p "Phone: " s _ hp (by decide) (by rw [e]; exact h3) h
  · have e : "Address: ".data.head? = some 'A' := by decide
    exact append_ne_of_head p "Address: " s _ hp (by decide)
      (by rw [e]; exact h4) h
  · have e : "Service: ".data.head? = some 'S' := by decide
    exact append_ne_of_head p "Service: " s _ hp (by decide)
      (by rw [e]; exact h5 ht) h
  · have e : "Urgency: ".data.head? = some 'U' := by decide
    exact append_ne_of_head p "Urgency: " s _ hp (by decide)
      (by rw [e]; exact h6 ht) h
  · have e : "Details: ".data.head? = some 'D' := by decide
    exact append_ne_of_head p "Details: " s _ hp (by decide)
      (by rw [e]; exact h7 ht) h

/-- C1: for every POST request in which name, phone, or address is missing or
empty (individually or in any combination), both quote handlers return status
400 with the structured error body and dispatch no collaborator call at all. -/
theorem c1_missing_required_field_rejected
    (body : List (String × String)) (o : Outcomes)
    (h : truthy (destructure body).name = false ∨
         truthy (destructure body).phone = false ∨
         truthy (destructure body).address = false) :
    Quote.handler "POST" body o =
      { response := { status := 400,
                      body := .error "Name, phone, and address are required.",
                      headers := corsHeaders },
        calls := [] } ∧
    Part000.handler "POST" body o =
      { response := { status := 400,
                      body := .error "Name, phone, and address are required.",
                      headers := corsHeaders },
        calls := [] } := by
  constructor <;>
    rcases h with h | h | h <;>
      simp +decide [Quote.handler, Part000.handler, Quote.handlerPost,
        Part000.handlerPost, h]

/-- Witness for C1: a concrete submission with the name field missing. -/
theorem c1_missing_required_field_rejected_witness :
    Quote.handler "POST" [("phone", "760-555-0100"), ("address", "123 Oak St")]
        ⟨.fulfilled, .fulfilled, .fulfilled⟩ =
      { response := { status := 400,
                      body := .error "Name, phone, and address are required.",
                      headers := corsHeaders },
        calls := [] } ∧
    Part000.handler "POST" [("phone", "760-555-0100"), ("address", "123 Oak St")]
        ⟨.fulfilled, .fulfilled, .fulfilled⟩ =
      { response := { status := 400,
                      body := .error "Name, phone, and address are required.",
                      headers := corsHeaders },
        calls := [] } :=
  c1_missing_required_field_rejected
    [("phone", "760-555-0100"), ("address", "123 Oak St")]
    ⟨.fulfilled, .fulfilled, .fulfilled⟩ (Or.inl (by decide))

/-- C2: for every valid POST request (name, phone, address all truthy), both
quote handlers dispatch exactly the three collaborator calls, in order record
store, SMS, email, each receiving the full destructured payload; the trace
equality rules out any retry, duplicate, or dropped call. -/
theorem c2_valid_three_calls_once
    (body : List (String × String)) (o : Outcomes)
    (hn : truthy (destructure body).name = true)
    (hp : truthy (destructure body).phone = true)
    (ha : truthy (destructure body).address = true) :
    (Quote.handler "POST" body o).calls =
      [.airtable (destructure body), .sms (destructure body),
       .email (destructure body)] ∧
    (Part000.handler "POST" body o).calls =
      [.airtable (destructure body), .sms (destructure body),
       .email (destructure body)] := by
  constructor <;>
    simp +decide [Quote.handler, Part000.handler, Quote.handlerPost,
      Part000.handlerPost, hn, hp, ha]

/-- Witness for C2: the Jane Doe submission. -/
theorem c2_valid_three_calls_once_witness :
    (Quote.handler "POST" janeBody ⟨.fulfilled, .fulfilled, .fulfilled⟩).calls =
      [.airtable (destructure janeBody), .sms (destructure janeBody),
       .email (destructure janeBody)] ∧
    (Part000.handler "POST" janeBody
        ⟨.fulfilled, .fulfilled, .fulfilled⟩).calls =
      [.airtable (destructure janeBody), .sms (destructure janeBody),
       .email (destructure janeBody)] :=
  c2_valid_three_calls_once janeBody ⟨.fulfilled, .fulfilled, .fulfilled⟩
    (by decide) (by decide) (by decide)

/-- C3: for every valid POST request, the set of collaborator calls dispatched
is the same fixed three-element trace for every assignment of settled
outcomes — so no collaborator failure can prevent, abort, or roll back either
of the other two calls — and the response is built only after the join over
all outcomes: in the diagnostic-echo variant the response body carries the
settled summary of all three, and in the sequential variant the SMS and email
calls are still both dispatched when the awaited record-store call has
rejected. -/
theorem c3_settle_all_independent (body : List (String × String))
    (hn : truthy (destructure body).name = true)
    (hp : truthy (destructure body).phone = true)
    (ha : truthy (destructure body).address = true) :
    (∀ o : Outcomes, (Quote.handler "POST" body o).calls =
      [.airtable (destructure body), .sms (destructure body),
       .email (destructure body)]) ∧
    (∀ o : Outcomes,
      (Part000.handler "POST" body o).calls =
        [.airtable (destructure body), .sms (destructure body),
         .email (destructure body)] ∧
      (Part000.handler "POST" body o).response.body =
        .successDebug (Part000.settledSummary o.airtable)
          (Part000.settledSummary o.sms) (Part000.settledSummary o.email)) ∧
    (∀ (oa : Seq.AirtableOutcome) (os oe : Settled),
      (Seq.handler "POST" body oa os oe).calls =
        [.airtable (destructure body), .sms (destructure body),
         .email (destructure body) (Seq.recordIdOf oa)] ∧
      (Seq.handler "POST" body oa os oe).response.status = 200) := by
  refine ⟨fun o => ?_, fun o => ⟨?_, ?_⟩, fun oa os oe => ⟨?_, ?_⟩⟩ <;>
    simp +decide [Quote.handler, Part000.handler, Seq.handler,
      Quote.handlerPost, Part000.handlerPost, Seq.handlerPost, hn, hp, ha]

/-- Witness for C3: the Jane Doe submission with every collaborator rejecting
for the parallel variant, and a rejected record-store call for the sequential
variant; all three calls are dispatched regardless. -/
theorem c3_settle_all_independent_witness :
    (Quote.handler "POST" janeBody
        ⟨.rejected "a", .rejected "b", .rejected "c"⟩).calls =
      [.airtable (destructure janeBody), .sms (destructure janeBody),
       .email (destructure janeBody)] ∧
    (Part000.handler "POST" janeBody
        ⟨.rejected "a", .fulfilled, .fulfilled⟩).response.body =
      .successDebug "FAIL: a" "OK" "OK" ∧
    (Seq.handler "POST" janeBody (.rejected "a") .fulfilled .fulfilled).calls =
      [.airtable (destructure janeBody), .sms (destructure janeBody),
       .email (destructure janeBody) none] := by
  have h := c3_settle_all_independent janeBody (by decide) (by decide)
    (by decide)
  exact ⟨h.1 _, (h.2.1 ⟨.rejected "a", .fulfilled, .fulfilled⟩).2,
    (h.2.2 (.rejected "a") .fulfilled .fulfilled).1⟩

/-- C4: under the silent-success policy of quote.js, a valid POST request in
which all three collaborator calls reject still receives a 200 response with
the plain success body; no collaborator failure is surfaced to the
submitter. -/
theorem c4_silent_success_all_fail (body : List (String × String))
    (r1 r2 r3 : String)
    (hn : truthy (destructure body).name = true)
    (hp : truthy (destructure body).phone = true)
    (ha : truthy (destructure body).address = true) :
    (Quote.handler "POST" body
        ⟨.rejected r1, .rejected r2, .rejected r3⟩).response =
      { status := 200, body := .success, headers := corsHeaders } := by
  simp +decide [Quote.handler, Quote.handlerPost, hn, hp, ha]

/-- Witness for C4: the Jane Doe submission with three concrete rejection
reasons. -/
theorem c4_silent_success_all_fail_witness :
    (Quote.handler "POST" janeBody
        ⟨.rejected "Airtable 500: x", .rejected "Textbelt 500: y",
         .rejected "Resend 500: z"⟩).response =
      { status := 200, body := .success, headers := corsHeaders } :=
  c4_silent_success_all_fail janeBody "Airtable 500: x" "Textbelt 500: y"
    "Resend 500: z" (by decide) (by decide) (by decide)

/-- C5: under the diagnostic-echo policy of part_000, a valid POST request in
which the record-store call rejects while SMS and email fulfill receives a
200 success response whose per-collaborator summary reports airtable as FAIL
(with the reason) and sms and email as OK. -/
theorem c5_diagnostic_echo_airtable_fail (body : List (String × String))
    (r : String)
    (hn : truthy (destructure body).name = true)
    (hp : truthy (destructure body).phone = true)
    (ha : truthy (destructure body).address = true) :
    (Part000.handler "POST" body
        ⟨.rejected r, .fulfilled, .fulfilled⟩).response =
      { status := 200,
        body := .successDebug ("FAIL: " ++ r) "OK" "OK",
        headers := corsHeaders } := by
  simp +decide [Part000.handler, Part000.handlerPost, Part000.settledSummary,
    hn, hp, ha]

/-- Witness for C5: the Jane Doe submission with a concrete record-store
rejection reason. -/
theorem c5_diagnostic_echo_airtable_fail_witness :
    (Part000.handler "POST" janeBody
        ⟨.rejected "Airtable 500: x", .fulfilled, .fulfilled⟩).response =
      { status := 200,
        body := .successDebug ("FAIL: " ++ "Airtable 500: x") "OK" "OK",
        headers := corsHeaders } :=
  c5_diagnostic_echo_airtable_fail janeBody "Airtable 500: x" (by decide)
    (by decide) (by decide)

/-- C6 counterexample: an OPTIONS request is not POST, yet the part_000
handler answers it with status 200, not 405, so the universally quantified
clause that every non-POST request receives 405 is false as stated. -/
theorem c6_counterexample :
    (Part000.handler "OPTIONS" []
        ⟨.fulfilled, .fulfilled, .fulfilled⟩).response.status = 200 ∧
    ¬((Part000.handler "OPTIONS" []
        ⟨.fulfilled, .fulfilled, .fulfilled⟩).response.status = 405) := by
  constructor
  · decide
  · decide

/-- C6 amended: in the part_000 handler every request whose method is neither
POST nor OPTIONS receives 405 with no collaborator call, and an OPTIONS
request receives 200 with the three CORS headers set and an empty body; in
the quote.js handler, which has no preflight branch, every non-POST method
(OPTIONS included) receives 405. -/
theorem c6_amended_method_dispatch (m : String)
    (body : List (String × String)) (o : Outcomes) (hm : m ≠ "POST") :
    (m ≠ "OPTIONS" →
      (Part000.handler m body o).response =
        { status := 405, body := .error "Method not allowed",
          headers := [] } ∧
      (Part000.handler m body o).calls = []) ∧
    (Part000.handler "OPTIONS" body o).response =
      { status := 200, body := .empty, headers := corsHeaders } ∧
    (Part000.handler "OPTIONS" body o).calls = [] ∧
    (Quote.handler m body o).response =
      { status := 405, body := .error "Method not allowed", headers := [] } ∧
    (Quote.handler m body o).calls = [] := by
  refine ⟨fun hop => ?_, ?_, ?_, ?_, ?_⟩ <;>
    simp +decide [Part000.handler, Quote.handler, hm, *]

/-- Witness for C6 amended: a GET request. -/
theorem c6_amended_method_dispatch_witness :
    (Part000.handler "GET" [] ⟨.fulfilled, .fulfilled, .fulfilled⟩).response =
      { status := 405, body := .error "Method not allowed", headers := [] } ∧
    (Part000.handler "OPTIONS" []
        ⟨.fulfilled, .fulfilled, .fulfilled⟩).response =
      { status := 200, body := .empty, headers := corsHeaders } ∧
    (Quote.handler "GET" [] ⟨.fulfilled, .fulfilled, .fulfilled⟩).response =
      { status := 405, body := .error "Method not allowed", headers := [] } := by
  have h := c6_amended_method_dispatch "GET" []
    ⟨.fulfilled, .fulfilled, .fulfilled⟩ (by decide)
  exact ⟨(h.1 (by decide)).1, h.2.1, h.2.2.2.1⟩

/-- C7: when an optional field is absent from the submission, no line for it
appears in the rendered SMS text of either variant, and the Service and
Urgency keys are absent from the emitted record-store field set of either
variant (never sent as empty placeholders). -/
theorem c7_optional_fields_omitted (d : QuoteData) :
    (d.service = none →
      (∀ s, ("Service: " ++ s) ∉ Quote.smsLines d) ∧
      (∀ s, ("Service: " ++ s) ∉ Part000.smsLines d) ∧
      "Service" ∉ (Quote.airtableFields d).map Prod.fst ∧
      "Service" ∉ (Part000.airtableFields d).map Prod.fst) ∧
    (d.urgency = none →
      (∀ s, ("Urgency: " ++ s) ∉ Quote.smsLines d) ∧
      (∀ s, ("Urgency: " ++ s) ∉ Part000.smsLines d) ∧
      "Urgency" ∉ (Quote.airtableFields d).map Prod.fst ∧
      "Urgency" ∉ (Part000.airtableFields d).map Prod.fst) ∧
    (d.details = none →
      (∀ s, ("Details: " ++ s) ∉ Quote.smsLines d) ∧
      (∀ s, ("Details: " ++ s) ∉ Part000.smsLines d)) := by
  refine ⟨fun h => ?_, fun h => ?_, fun h => ?_⟩
  · have ht : truthy d.service = false := by rw [h]; rfl
    refine ⟨fun s => Quote.no_line_head d "Service: " s (by decide) (by decide)
        (by decide) (by decide) (by decide)
        (fun hc => absurd hc (by simp [ht]))
        (fun _ => by decide) (fun _ => by decide),
      fun s => Part000.no_line_head_v0 d "Service: " s (by decide) (by decide)
        (by decide) (by decide) (by decide)
        (fun hc => absurd hc (by simp [ht]))
        (fun _ => by decide) (fun _ => by decide), ?_, ?_⟩
    · rw [Quote.mem_airtableKeys]
      simp +decide [ht]
    · rw [Part000.mem_airtableKeys_v0]
      simp +decide [ht]
  · have ht : truthy d.urgency = false := by rw [h]; rfl
    refine ⟨fun s => Quote.no_line_head d "Urgency: " s (by decide) (by decide)
        (by decide) (by decide) (by decide)
        (fun _ => by decide)
        (fun hc => absurd hc (by simp [ht])) (fun _ => by decide),
      fun s => Part000.no_line_head_v0 d "Urgency: " s (by decide) (by decide)
        (by decide) (by decide) (by decide)
        (fun _ => by decide)
        (fun hc => absurd hc (by simp [ht])) (fun _ => by decide), ?_, ?_⟩
    · rw [Quote.mem_airtableKeys]
      simp +decide [ht]
    · rw [Part000.mem_airtableKeys_v0]
      simp +decide [ht]
  · have ht : truthy d.details = false := by rw [h]; rfl
    exact ⟨fun s => Quote.no_line_head d "Details: " s (by decide) (by decide)
        (by decide) (by decide) (by decide)
        (fun _ => by decide) (fun _ => by decide)
        (fun hc => absurd hc (by simp [ht])),
      fun s => Part000.no_line_head_v0 d "Details: " s (by decide) (by decide)
        (by decide) (by decide) (by decide)
        (fun _ => by decide) (fun _ => by decide)
        (fun hc => absurd hc (by simp [ht]))⟩

/-- Witness for C7: a submission with only the required fields. -/
theorem c7_optional_fields_omitted_witness :
    ("Service: " ++ "Mowing") ∉ Quote.smsLines minimalData ∧
    "Service" ∉ (Quote.airtableFields minimalData).map Prod.fst ∧
    "Urgency" ∉ (Part000.airtableFields minimalData).map Prod.fst ∧
    ("Details: " ++ "Gate code 4521") ∉ Part000.smsLines minimalData := by
  have h := c7_optional_fields_omitted minimalData
  exact ⟨(h.1 rfl).1 "Mowing", (h.1 rfl).2.2.1, (h.2.1 rfl).2.2.2,
    (h.2.2 rfl).2 "Gate code 4521"⟩

/-- C8: for the Jane Doe submission (service Mowing, details present, urgency
absent) the record-store field set includes Name "Jane Doe" and Status "New",
the rendered SMS lines of both variants contain the five expected lines and
no Urgency line, and the quote.js handler responds 200 success for every
outcome assignment. -/
theorem c8_jane_doe_example :
    ("Name", "Jane Doe") ∈ Quote.airtableFields (destructure janeBody) ∧
    ("Status", "New") ∈ Quote.airtableFields (destructure janeBody) ∧
    "Name: Jane Doe" ∈ Quote.smsLines (destructure janeBody) ∧
    "Phone: 760-555-0100" ∈ Quote.smsLines (destructure janeBody) ∧
    "Address: 123 Oak St" ∈ Quote.smsLines (destructure janeBody) ∧
    "Service: Mowing" ∈ Quote.smsLines (destructure janeBody) ∧
    "Details: Gate code 4521" ∈ Quote.smsLines (destructure janeBody) ∧
    "Name: Jane Doe" ∈ Part000.smsLines (destructure janeBody) ∧
    "Phone: 760-555-0100" ∈ Part000.smsLines (destructure janeBody) ∧
    "Address: 123 Oak St" ∈ Part000.smsLines (destructure janeBody) ∧
    "Service: Mowing" ∈ Part000.smsLines (destructure janeBody) ∧
    "Details: Gate code 4521" ∈ Part000.smsLines (destructure janeBody) ∧
    (∀ s, ("Urgency: " ++ s) ∉ Quote.smsLines (destructure janeBody)) ∧
    (∀ s, ("Urgency: " ++ s) ∉ Part000.smsLines (destructure janeBody)) ∧
    (∀ o : Outcomes, (Quote.handler "POST" janeBody o).response =
      { status := 200, body := .success, headers := corsHeaders }) := by
  refine ⟨by decide, by decide, by decide, by decide, by decide, by decide,
    by decide, by decide, by decide, by decide, by decide, by decide,
    fun s => Quote.no_line_head _ "Urgency: " s (by decide) (by decide)
      (by decide) (by decide) (by decide) (fun _ => by decide)
      (fun hc => absurd hc (by decide)) (fun _ => by decide),
    fun s => Part000.no_line_head_v0 _ "Urgency: " s (by decide) (by decide)
      (by decide) (by decide) (by decide) (fun _ => by decide)
      (fun hc => absurd hc (by decide)) (fun _ => by decide),
    fun o => rfl⟩

theorem eq_empty_of_length_zero (s : String) (h : s.length = 0) : s = "" := by
  cases s with
  | mk data =>
    cases data with
    | nil => rfl
    | cons c cs => simp [String.length] at h

/-- C9 counterexample: with a three-character secret in AIRTABLE_API_KEY, the
diagnostic endpoint emits a status string for that variable that spells out
the entire secret value verbatim (the four-character preview of a value of at
most four characters is the whole value), so the clause that the full secret
value is never emitted is false as stated. -/
theorem c9_counterexample :
    ("AIRTABLE_API_KEY", "SET (3 chars, starts with \"abc...\")") ∈
      Debug.statusReport envShort ∧
    Debug.varStatus (some "abc") =
      "SET (" ++ "3" ++ " chars, starts with \"" ++ "abc" ++ "...\")" := by
  constructor <;> decide

/-- C9 amended: the diagnostic endpoint reports one entry per name of its
fixed list of seven configuration variables; an absent or empty value is
reported as MISSING; and the preview emitted for a present value depends only
on the value's length and its first four characters — which redacts the
remainder of longer values but is the entire value when the value has at most
four characters. -/
theorem c9_amended_redacted_preview :
    (∀ env : String → Option String,
      (Debug.statusReport env).map Prod.fst = Debug.vars ∧
      ∀ v ∈ Debug.vars,
        (v, Debug.varStatus (env v)) ∈ Debug.statusReport env) ∧
    (∀ val : Option String, truthy val = false →
      Debug.varStatus val = "MISSING") ∧
    (∀ u v : String, u.length = v.length → u.data.take 4 = v.data.take 4 →
      Debug.varStatus (some u) = Debug.varStatus (some v)) := by
  refine ⟨fun env => ⟨?_, fun v hv => ?_⟩, fun val h => ?_,
    fun u v hlen htake => ?_⟩
  · simp only [Debug.statusReport, List.map_map]
    exact List.map_id'' (fun x => rfl) Debug.vars
  · exact List.mem_map.mpr ⟨v, hv, rfl⟩
  · simp [Debug.varStatus, h]
  · by_cases hu : u = ""
    · have hv : v = "" := eq_empty_of_length_zero v (by rw [← hlen, hu]; rfl)
      rw [hu, hv]
    · have hv : v ≠ "" := fun h0 =>
        hu (eq_empty_of_length_zero u (by rw [hlen, h0]; rfl))
      have tu : truthy (some u) = true := by simp [truthy, hu]
      have tv : truthy (some v) = true := by simp [truthy, hv]
      simp only [Debug.varStatus, tu, tv, if_true, jsStr]
      rw [hlen, htake]

/-- Witness for C9 amended: the short-secret environment, an absent value,
and two eleven-character secrets sharing only length and four-character
prefix, which receive identical previews. -/
theorem c9_amended_redacted_preview_witness :
    (Debug.statusReport envShort).map Prod.fst = Debug.vars ∧
    Debug.varStatus none = "MISSING" ∧
    Debug.varStatus (some "wxyzSECRET1") = Debug.varStatus (some "wxyzSECRET2") := by
  have h := c9_amended_redacted_preview
  exact ⟨(h.1 envShort).1, h.2.1 none rfl,
    h.2.2 "wxyzSECRET1" "wxyzSECRET2" (by decide) (by decide)⟩

/-- C10: two POST request bodies that agree on the six destructured keys
produce identical results (response and collaborator payload trace) in all
three handler variants, whatever extra keys either body carries — the
handlers read the body only through the six-field destructuring. -/
theorem c10_extra_body_keys_ignored (b1 b2 : List (String × String))
    (h : ∀ k ∈ knownKeys, getField b1 k = getField b2 k) :
    (∀ o : Outcomes, Quote.handler "POST" b1 o = Quote.handler "POST" b2 o) ∧
    (∀ o : Outcomes,
      Part000.handler "POST" b1 o = Part000.handler "POST" b2 o) ∧
    (∀ (oa : Seq.AirtableOutcome) (os oe : Settled),
      Seq.handler "POST" b1 oa os oe = Seq.handler "POST" b2 oa os oe) := by
  have h1 := h "name" (by decide)
  have h2 := h "phone" (by decide)
  have h3 := h "address" (by decide)
  have h4 := h "service" (by decide)
  have h5 := h "urgency" (by decide)
  have h6 := h "details" (by decide)
  have hd : destructure b1 = destructure b2 := by
    simp [destructure, h1, h2, h3, h4, h5, h6]
  refine ⟨fun o => ?_, fun o => ?_, fun oa os oe => ?_⟩ <;>
    simp only [Quote.handler, Part000.handler, Seq.handler, hd]

/-- Witness for C10: the Jane Doe submission with and without an extra
unrecognized body key. -/
theorem c10_extra_body_keys_ignored_witness :
    Quote.handler "POST" janeBody ⟨.fulfilled, .rejected "b", .fulfilled⟩ =
      Quote.handler "POST" (janeBody ++ [("comments", "extra field")])
        ⟨.fulfilled, .rejected "b", .fulfilled⟩ ∧
    Part000.handler "POST" janeBody ⟨.fulfilled, .rejected "b", .fulfilled⟩ =
      Part000.handler "POST" (janeBody ++ [("comments", "extra field")])
        ⟨.fulfilled, .rejected "b", .fulfilled⟩ := by
  have h := c10_extra_body_keys_ignored janeBody
    (janeBody ++ [("comments", "extra field")]) (by decide)
  exact ⟨h.1 _, h.2.1 _⟩
